import Mathlib

/-!
A verification development for the annotation-derivation engine of
`auto_annotate.py` (dissertation-gaze-tool).

The Python floats are modelled as exact rationals (`ℚ`): every arithmetic
operation of the engine (add, subtract, multiply, divide, clamp, compare)
is exact at the rational level, and the decimal literals of the source
(`0.25`, `0.05`, `0.3333`, ...) are modelled as the exact rationals they
denote.  Square roots are irrational, so every comparison of the source
that has the shape `sqrt e < t` is embedded as the equivalent comparison
on squares (`0 ≤ t ∧ e < t^2`, using that `sqrt e ≥ 0`); each such spot
carries a comment.  Fallible Python code (a raised exception) is embedded
as `Option`, `none` marking the raise.
-/

namespace GazeTool

/-- A Python value appearing in a `bbox` / point list.  `num q` is any value
on which `float()` succeeds with result `q` (floats, ints, numeric strings);
`nonNum` is any value on which `float()` raises (`None`, a non-numeric
string, a nested list, ...). -/
inductive PyVal where
  | num (q : ℚ)
  | nonNum
deriving DecidableEq, Repr

/-- `float(v)`: `some` of the numeric value, `none` when Python raises. -/
def toFloat : PyVal → Option ℚ
  | .num q => some q
  | .nonNum => none

/-- `max(0.0, min(1.0, q))`, the component-wise clamp of `normalize_bbox`. -/
def clamp01 (q : ℚ) : ℚ := max 0 (min 1 q)

/-- `rectify_bbox(x, y, w, h)` (source lines 72–80).  The source's
`if w is not None and h is not None` guard is vacuously true here because
the components are numeric (`ℚ`), which is the only way the function is
invoked (from `normalize_bbox` after `float()` conversion). -/
def rectify_bbox (x y w h : ℚ) : ℚ × ℚ × ℚ × ℚ :=
  ((if w < 0 then x + w else x), (if h < 0 then y + h else y),
   (if w < 0 then -w else w), (if h < 0 then -h else h))

/-- `normalize_bbox(bbox, is_normalized, width, height)` (source lines
83–93).  The argument is `none` for a missing field (Python `None`);
`not bbox or len(bbox) < 4` is the `_` catch-all returning the default.
With at least four components the source runs
`[float(v) for v in bbox[:4]]` with no exception handler, so a
non-numeric component among the first four raises — embedded as `none`. -/
def normalize_bbox (bbox : Option (List PyVal)) (is_normalized : Bool)
    (width height : ℚ) : Option (List ℚ) :=
  match bbox with
  | some (a :: b :: c :: d :: _) =>
    match toFloat a, toFloat b, toFloat c, toFloat d with
    | some x0, some y0, some w0, some h0 =>
      match rectify_bbox x0 y0 w0 h0 with
      | (x, y, w, h) =>
        if is_normalized then
          some [clamp01 x, clamp01 y, clamp01 w, clamp01 h]
        else
          some [clamp01 (x / width), clamp01 (y / height),
                clamp01 (w / width), clamp01 (h / height)]
    | _, _, _, _ => none
  | _ => some [1/4, 1/4, 1/2, 1/2]

/-- `normalize_point(pt, is_normalized, width, height)` (source lines
96–109).  Missing (`none`) or shorter than 2 gives the default; the two
`float()` conversions sit inside `try/except`, so a non-numeric component
also gives the default.  Pre-normalized points pass through unclamped; a
negative pixel coordinate maps to the sentinel `-0.05`. -/
def normalize_point (pt : Option (List PyVal)) (is_normalized : Bool)
    (width height : ℚ) : List ℚ :=
  match pt with
  | some (p0 :: p1 :: _) =>
    match toFloat p0, toFloat p1 with
    | some px, some py =>
      if is_normalized then [px, py]
      else [if px ≥ 0 then px / width else -(1/20),
            if py ≥ 0 then py / height else -(1/20)]
    | _, _ => [1/2, 1/2]
  | _ => [1/2, 1/2]

/-- The set of plane points covered by a box `(x, y, w, h)` whose width or
height may be negative (opposite-corner encoding): the axis-aligned
rectangle spanned by the two corners `(x, y)` and `(x + w, y + h)`. -/
def coveredPoints (x y w h : ℚ) : Set (ℚ × ℚ) :=
  {p | min x (x + w) ≤ p.1 ∧ p.1 ≤ max x (x + w) ∧
       min y (y + h) ≤ p.2 ∧ p.2 ≤ max y (y + h)}

/-- `target_type` classification (`analyze_gaze`, source lines 112–131).
The source compares the Euclidean distance (a square root) against
`min(faceW, faceH) * 0.3`; since the distance is `√distSq ≥ 0`, the
comparison `√distSq < t` holds exactly when `0 ≤ t ∧ distSq < t^2`,
which is the ℚ-internal form used here (proved equivalent in the
corresponding theorem). -/
def targetType (bx b_y bw bh gx gy width height : ℚ) : String :=
  let gazeX := gx * width
  let gazeY := gy * height
  let faceX := bx * width
  let faceY := b_y * height
  let faceW := bw * width
  let faceH := bh * height
  if gazeX < 0 ∨ gazeX > width ∨ gazeY < 0 ∨ gazeY > height then
    "out-of-frame target"
  else
    let faceCenterX := faceX + faceW / 2
    let faceCenterY := faceY + faceH / 2
    let gazeDistanceSq := (gazeX - faceCenterX) ^ 2 + (gazeY - faceCenterY) ^ 2
    let t := min faceW faceH * (3/10)
    if 0 ≤ t ∧ gazeDistanceSq < t ^ 2 then "Eye-contact"
    else "in-frame target"

/-- `farther_closer` classification (source lines 133–140).
`faceSize = √(faceW·faceH)` is a complex number when `faceW·faceH < 0`
and the comparison with a float then raises a `TypeError` (embedded as
`none`); otherwise `dist > 2·faceSize ↔ distSq > 4·(faceW·faceH)` and
`dist < 0.5·faceSize ↔ 4·distSq < faceW·faceH`, both comparisons between
nonnegative quantities. -/
def fartherCloser (bx b_y bw bh gx gy width height : ℚ) : Option String :=
  let gazeX := gx * width
  let gazeY := gy * height
  let faceX := bx * width
  let faceY := b_y * height
  let faceW := bw * width
  let faceH := bh * height
  let distSq := (gazeX - (faceX + faceW / 2)) ^ 2
    + (gazeY - (faceY + faceH / 2)) ^ 2
  let s := faceW * faceH
  if s < 0 then none
  else if distSq > 4 * s then some "farther"
  else if 4 * distSq < s then some "closer"
  else some "equal"

/-- The scale computation (source lines 142–145).  The guard of the
source tests the constant `estimatedFaceWidthMeters > 0` — which is
always true — so `pixelsPerMeter = faceW / 0.2` unconditionally; when
that quotient is zero, the division `gazeDistanceFromFace / pixelsPerMeter`
raises `ZeroDivisionError` (embedded as `none`).  The value carried is
the square of `gazeDistanceMeters`; the source then formats the square
root of this value to two decimals, which no surviving claim depends on. -/
def scaleSqMeters (bx b_y bw bh gx gy width height : ℚ) : Option ℚ :=
  let gazeX := gx * width
  let gazeY := gy * height
  let faceX := bx * width
  let faceY := b_y * height
  let faceW := bw * width
  let faceH := bh * height
  let distSq := (gazeX - (faceX + faceW / 2)) ^ 2
    + (gazeY - (faceY + faceH / 2)) ^ 2
  let pixelsPerMeter := if (0 : ℚ) < 2/10 then faceW / (2/10) else 1
  if pixelsPerMeter = 0 then none
  else some (distSq / pixelsPerMeter ^ 2)

/-- `object_detection` heuristic (source lines 147–158), evaluated on the
normalized gaze coordinates, first match wins. -/
def objectDetection (tt : String) (gx gy : ℚ) : String :=
  if tt = "Eye-contact" then "Camera/Viewer"
  else if gy < 3/10 then "Object above (ceiling, sky, etc.)"
  else if gy > 7/10 then "Object below (floor, ground, etc.)"
  else if gx < 3/10 then "Object on left side"
  else if gx > 7/10 then "Object on right side"
  else "Central object"

/-- `focal_point` region classification (source lines 160–181).  The
decimal literals `0.3333` and `0.6667` of the source are the exact
rationals used here. -/
def focalPoint (gx gy : ℚ) : String :=
  if gx < 0 ∨ gx > 1 ∨ gy < 0 ∨ gy > 1 then
    let horiz := if gx < 0 then "left" else if gx > 1 then "right" else "center"
    let vert := if gy < 0 then "top" else if gy > 1 then "bottom" else "middle"
    if horiz = "center" ∧ vert = "middle" then "out-of-frame"
    else if vert = "middle" then "out-of-frame " ++ horiz
    else if horiz = "center" then "out-of-frame " ++ vert
    else "out-of-frame " ++ vert ++ "-" ++ horiz
  else
    let horiz := if gx < 3333/10000 then "left"
      else if gx > 6667/10000 then "right" else "center"
    let vert := if gy < 3333/10000 then "top"
      else if gy > 6667/10000 then "bottom" else "middle"
    if horiz = "center" ∧ vert = "middle" then "center"
    else if vert = "middle" then horiz
    else if horiz = "center" then vert
    else vert ++ "-" ++ horiz

/-- The amended 3×3 focal table, spelled out from the amended claim's
words: thresholds at exactly the source literals 0.3333 and 0.6667,
vertical-horizontal word order, both-central giving "center".  This is a
spec-side definition, to be compared with `focalPoint`. -/
def focalTable (gx gy : ℚ) : String :=
  if gy < 3333/10000 then
    if gx < 3333/10000 then "top-left"
    else if gx > 6667/10000 then "top-right"
    else "top"
  else if gy > 6667/10000 then
    if gx < 3333/10000 then "bottom-left"
    else if gx > 6667/10000 then "bottom-right"
    else "bottom"
  else
    if gx < 3333/10000 then "left"
    else if gx > 6667/10000 then "right"
    else "center"

/-- The label record returned by `analyze_gaze`. -/
structure Analysis where
  target_type : String
  farther_closer : String
  scaleSq : ℚ
  object_detection : String
  focal_point : String
deriving DecidableEq, Repr

/-- `analyze_gaze(bbox, gaze, width, height)` (source lines 112–188),
sequencing the five derivations in source order; a raise in the
farther/closer comparison or in the scale division aborts the whole
call (`none`). -/
def analyzeGaze (bx b_y bw bh gx gy width height : ℚ) : Option Analysis :=
  let tt := targetType bx b_y bw bh gx gy width height
  match fartherCloser bx b_y bw bh gx gy width height with
  | none => none
  | some fc =>
    match scaleSqMeters bx b_y bw bh gx gy width height with
    | none => none
    | some sc =>
      some ⟨tt, fc, sc, objectDetection tt gx gy, focalPoint gx gy⟩

/-- One output annotation (`make_ann` result plus `gaze_number`);
`scaleSq` carries the square of the metric estimate as in `Analysis`. -/
structure AnnotationRecord where
  bbox : List ℚ
  gaze : List ℚ
  target_type : String
  farther_closer : String
  scaleSq : ℚ
  object_detection : String
  focal_point : String
  gaze_number : ℕ
deriving DecidableEq, Repr

/-- `make_ann(g)` (source lines 220–230): classify and build the record;
`gaze_number` is 0 until assigned.  The first pattern is the tuple
unpacking `bx, by, bw, bh = bbox` / `gx, gy = gaze`, which cannot fail
for lists produced by the normalizers. -/
def make_ann (bboxN g : List ℚ) (width height : ℚ) : Option AnnotationRecord :=
  match bboxN, g with
  | [bx, b_y, bw, bh], [gx, gy] =>
    (analyzeGaze bx b_y bw bh gx gy width height).map fun a =>
      ⟨bboxN, g, a.target_type, a.farther_closer, a.scaleSq,
       a.object_detection, a.focal_point, 0⟩
  | _, _ => none

/-- The geometry-relevant fields of a source item (source lines 210–215):
`is_gf` is the dataset-namespace inference `path.startswith('train/') or
path.startswith('test2/')`; `gazes = none` covers both an absent field
and a non-list value (`isinstance(gazes, list)` fails either way). -/
structure SourceItem where
  is_gf : Bool
  bbox : Option (List PyVal)
  eye : Option (List PyVal)
  gaze : Option (List PyVal)
  gazes : Option (List (List PyVal))

/-- A concrete VAT-style (pixel-space, `is_gf = false`) item with no gaze
field: bbox (25, 25, 50, 50) px, eye (50, 50) px. -/
def itemVatNoGaze : SourceItem :=
  ⟨false, some [.num 25, .num 25, .num 50, .num 50],
    some [.num 50, .num 50], none, none⟩

/-- A concrete pre-normalized item with no gaze field: bbox
(0.25, 0.25, 0.5, 0.5), eye (0.6, 0.6). -/
def itemGfNoGaze : SourceItem :=
  ⟨true, some [.num (1/4), .num (1/4), .num (1/2), .num (1/2)],
    some [.num (3/5), .num (3/5)], none, none⟩

/-- A concrete pre-normalized item with gaze (0.5, 0.5) far from the eye
(0.9, 0.9). -/
def itemGfFarEye : SourceItem :=
  ⟨true, some [.num (1/4), .num (1/4), .num (1/2), .num (1/2)],
    some [.num (9/10), .num (9/10)], some [.num (1/2), .num (1/2)], none⟩

/-- A concrete pre-normalized item with eye (0.5, 0.5), no gaze field and
one explicit extra gaze (0.1, 0.1). -/
def itemGfExtraGaze : SourceItem :=
  ⟨true, some [.num (1/4), .num (1/4), .num (1/2), .num (1/2)],
    some [.num (1/2), .num (1/2)], none, some [[.num (1/10), .num (1/10)]]⟩

/-- `normalize_point(item.get('gaze') or eye, ...)` (source line 215): a
missing or empty (falsy) gaze field falls back to the already-normalized
eye point, which is then passed through `normalize_point` a second
time. -/
def primaryGaze (item : SourceItem) (width height : ℚ) : List ℚ :=
  match item.gaze with
  | some (p :: ps) => normalize_point (some (p :: ps)) item.is_gf width height
  | _ => normalize_point
      (some ((normalize_point item.eye item.is_gf width height).map PyVal.num))
      item.is_gf width height

/-- The gaze-to-eye distance computation (source lines 236–241), squared;
the source's `except` branch (malformed pair, impossible for normalizer
outputs) sets the distance to 0 and is the catch-all here. -/
def pairDistSq (a b : List ℚ) : ℚ :=
  match a, b with
  | g0 :: g1 :: _, e0 :: e1 :: _ => (g0 - e0) ^ 2 + (g1 - e1) ^ 2
  | _, _ => 0

/-- The explicit-gazes loop (source lines 246–250): one record per entry,
in order; an exception mid-loop propagates out of `build_annotations`,
so the whole call yields `none`. -/
def emitAll (f : List PyVal → Option AnnotationRecord) :
    List (List PyVal) → Option (List AnnotationRecord)
  | [] => some []
  | g :: gs =>
    match f g with
    | none => none
    | some r => (emitAll f gs).map (r :: ·)

/-- `for i, ann in enumerate(anns, start=1): ann['gaze_number'] = i`
(source lines 253–254). -/
def assignNumbers : ℕ → List AnnotationRecord → List AnnotationRecord
  | _, [] => []
  | i, a :: rest => {a with gaze_number := i} :: assignNumbers (i + 1) rest

/-- `build_annotations(item)` (source lines 204–256), with the image
dimensions supplied by the external metadata collaborator.  `none`
embeds a raised exception (non-numeric bbox component, or a zero face
width feeding the scale division). -/
def buildAnnotations (item : SourceItem) (width height : ℚ) :
    Option (List AnnotationRecord) :=
  match normalize_bbox item.bbox item.is_gf width height with
  | none => none
  | some bboxN =>
    let eye := normalize_point item.eye item.is_gf width height
    let gaze := primaryGaze item width height
    match make_ann bboxN gaze width height with
    | none => none
    | some primary =>
      -- `dist > 0.05` with `dist = √pairDistSq ≥ 0` is `pairDistSq > 0.0025`
      let secondary : Option (List AnnotationRecord) :=
        if pairDistSq gaze eye > 1/400 then
          match make_ann bboxN eye width height with
          | none => none
          | some e => some [primary, e]
        else some [primary]
      match secondary with
      | none => none
      | some base =>
        match item.gazes with
        | none => some (assignNumbers 1 base)
        | some gs =>
          match emitAll (fun g =>
              make_ann bboxN (normalize_point (some g) item.is_gf width height)
                width height) gs with
          | none => none
          | some extra => some (assignNumbers 1 (base ++ extra))

end GazeTool

namespace GazeTool

/-- Mirroring the box along x (opposite-corner reading) covers the same
points: the endpoints `x + w` and `(x + w) + (-w) = x` are the original
endpoints swapped. -/
lemma coveredPoints_swap_x (x y w h : ℚ) :
    coveredPoints (x + w) y (-w) h = coveredPoints x y w h := by
  have e : x + w + -w = x := by ring
  simp only [coveredPoints, e, min_comm (x + w) x, max_comm (x + w) x]

/-- Mirroring the box along y covers the same points. -/
lemma coveredPoints_swap_y (x y w h : ℚ) :
    coveredPoints x (y + h) w (-h) = coveredPoints x y w h := by
  have e : y + h + -h = y := by ring
  simp only [coveredPoints, e, min_comm (y + h) y, max_comm (y + h) y]

/-- C9: for every box with negative width or negative height, `rectify_bbox`
returns a box with non-negative width and height covering exactly the same
set of points, via the opposite-corner reading (x shifted by w and w
negated when w < 0, independently for y/h). -/
theorem rectify_bbox_rectifies (x y w h x2 y2 w2 h2 : ℚ)
    (hneg : w < 0 ∨ h < 0)
    (heq : rectify_bbox x y w h = (x2, y2, w2, h2)) :
    0 ≤ w2 ∧ 0 ≤ h2 ∧ coveredPoints x2 y2 w2 h2 = coveredPoints x y w h := by
  clear hneg
  rw [rectify_bbox] at heq
  injection heq with e1 e2
  injection e2 with e3 e4
  injection e4 with e5 e6
  subst e1; subst e3; subst e5; subst e6
  rcases lt_or_le w 0 with hw | hw <;> rcases lt_or_le h 0 with hh | hh
  · simp only [if_pos hw, if_pos hh]
    exact ⟨by linarith, by linarith,
      (coveredPoints_swap_x x (y + h) w (-h)).trans
        (coveredPoints_swap_y x y w h)⟩
  · simp only [if_pos hw, if_neg (not_lt.mpr hh)]
    exact ⟨by linarith, hh, coveredPoints_swap_x x y w h⟩
  · simp only [if_neg (not_lt.mpr hw), if_pos hh]
    exact ⟨hw, by linarith, coveredPoints_swap_y x y w h⟩
  · simp only [if_neg (not_lt.mpr hw), if_neg (not_lt.mpr hh)]
    exact ⟨hw, hh, trivial⟩

/-- C9 witness: the box (5, 5, −3, 2) rectifies to (2, 5, 3, 2) with
non-negative dimensions and the same covered set. -/
theorem rectify_bbox_rectifies_witness :
    0 ≤ (3 : ℚ) ∧ 0 ≤ (2 : ℚ) ∧
      coveredPoints 2 5 3 2 = coveredPoints 5 5 (-3) 2 :=
  rectify_bbox_rectifies 5 5 (-3) 2 2 5 3 2 (Or.inl (by norm_num))
    (by norm_num [rectify_bbox])

/-- C10: `rectify_bbox` is idempotent — applying it to its own output
returns that output unchanged, because the first application always
yields non-negative width and height. -/
theorem rectify_bbox_idempotent (x y w h : ℚ) :
    (fun t : ℚ × ℚ × ℚ × ℚ => rectify_bbox t.1 t.2.1 t.2.2.1 t.2.2.2)
        (rectify_bbox x y w h) = rectify_bbox x y w h := by
  have hw2 : ¬((if w < 0 then -w else w) < 0) := by split_ifs <;> linarith
  have hh2 : ¬((if h < 0 then -h else h) < 0) := by split_ifs <;> linarith
  simp [rectify_bbox, hw2, hh2]

/-- The clamp keeps every component inside the unit interval. -/
lemma clamp01_mem (q : ℚ) : 0 ≤ clamp01 q ∧ clamp01 q ≤ 1 :=
  ⟨le_max_left 0 _, max_le (by norm_num) (min_le_left 1 q)⟩

/-- C8: every component of a successfully normalized box lies in [0, 1]
(positive image dimensions), while a pre-normalized well-formed point is
passed through by `normalize_point` unchanged and unclamped, even outside
[0, 1]. -/
theorem normalize_bbox_bounded_and_point_unclamped
    (bbox : Option (List PyVal)) (b : Bool) (w h : ℚ) (out : List ℚ)
    (px py : ℚ) (rest : List PyVal) (w2 h2 : ℚ)
    (hw : 0 < w) (hh : 0 < h)
    (hout : normalize_bbox bbox b w h = some out) :
    (∀ c ∈ out, 0 ≤ c ∧ c ≤ 1) ∧
      normalize_point (some (.num px :: .num py :: rest)) true w2 h2
        = [px, py] := by
  clear hw hh
  refine ⟨?_, rfl⟩
  have hdef : ∀ c ∈ ([1/4, 1/4, 1/2, 1/2] : List ℚ), 0 ≤ c ∧ c ≤ 1 := by
    intro c hc
    simp only [List.mem_cons, List.not_mem_nil, or_false] at hc
    rcases hc with rfl | rfl | rfl | rfl <;> norm_num
  rcases bbox with _ | l
  · obtain rfl := Option.some_inj.mp hout; exact hdef
  rcases l with _ | ⟨a1, l⟩
  · obtain rfl := Option.some_inj.mp hout; exact hdef
  rcases l with _ | ⟨a2, l⟩
  · obtain rfl := Option.some_inj.mp hout; exact hdef
  rcases l with _ | ⟨a3, l⟩
  · obtain rfl := Option.some_inj.mp hout; exact hdef
  rcases l with _ | ⟨a4, l⟩
  · obtain rfl := Option.some_inj.mp hout; exact hdef
  rcases a1 with q1 | _ <;> rcases a2 with q2 | _ <;>
    rcases a3 with q3 | _ <;> rcases a4 with q4 | _ <;>
    try exact Option.noConfusion hout
  rcases b with _ | _ <;>
  · obtain rfl := Option.some_inj.mp hout
    intro c hc
    simp only [List.mem_cons, List.not_mem_nil, or_false] at hc
    rcases hc with rfl | rfl | rfl | rfl <;> exact clamp01_mem _

/-- C8 witness: a pixel-space box with negative width normalizes into the
unit square, and a pre-normalized point with components outside [0, 1]
passes through unclamped. -/
theorem normalize_bbox_bounded_and_point_unclamped_witness :
    normalize_bbox (some [.num 200, .num (-50), .num (-100), .num 30])
        false 100 100 = some [1, 0, 1, 3/10] ∧
    (0 ≤ (1 : ℚ) ∧ (1 : ℚ) ≤ 1) ∧
    normalize_point (some [.num (3/2), .num (-(1/5))]) true 7 9
      = [3/2, -(1/5)] := by
  have hout : normalize_bbox (some [.num 200, .num (-50), .num (-100), .num 30])
      false 100 100 = some [1, 0, 1, 3/10] := by
    norm_num [normalize_bbox, rectify_bbox, toFloat, clamp01]
  have H := normalize_bbox_bounded_and_point_unclamped
    (some [.num 200, .num (-50), .num (-100), .num 30]) false 100 100
    [1, 0, 1, 3/10] (3/2) (-(1/5)) [] 7 9 (by norm_num) (by norm_num) hout
  exact ⟨hout, H.1 1 (by simp), H.2⟩

/-- C1 counterexample: a box list with four components of which the third
is non-numeric makes `normalize_bbox` raise (the `float()` conversion at
line 86 is not guarded), rather than return the default box as claimed. -/
theorem normalize_bbox_nonnumeric_raises :
    normalize_bbox (some [.num 1, .num 2, .nonNum, .num 4]) true 100 100
        = none ∧
    normalize_bbox (some [.num 1, .num 2, .nonNum, .num 4]) true 100 100
        ≠ some [1/4, 1/4, 1/2, 1/2] := by
  refine ⟨rfl, ?_⟩
  intro hcontra
  rw [show normalize_bbox (some [.num 1, .num 2, .nonNum, .num 4]) true 100 100
      = none from rfl] at hcontra
  exact Option.noConfusion hcontra

/-- C1 amended: a missing, empty, or shorter-than-4 box yields the default
box without raising; a missing, short, or non-numeric point yields the
default point without raising; but a box with at least four components
of which one of the first four is non-numeric makes `normalize_bbox`
raise a conversion error (embedded as `none`). -/
theorem normalize_malformed_defaults
    (l : List PyVal) (pt : List PyVal) (b : Bool) (w h : ℚ)
    (p0 p1 : PyVal) (rest : List PyVal)
    (a1 a2 a3 a4 : PyVal) (rest2 : List PyVal) :
    (normalize_bbox none b w h = some [1/4, 1/4, 1/2, 1/2]) ∧
    (l.length < 4 → normalize_bbox (some l) b w h
        = some [1/4, 1/4, 1/2, 1/2]) ∧
    (normalize_point none b w h = [1/2, 1/2]) ∧
    (pt.length < 2 → normalize_point (some pt) b w h = [1/2, 1/2]) ∧
    ((toFloat p0 = none ∨ toFloat p1 = none) →
      normalize_point (some (p0 :: p1 :: rest)) b w h = [1/2, 1/2]) ∧
    ((toFloat a1 = none ∨ toFloat a2 = none ∨ toFloat a3 = none ∨
        toFloat a4 = none) →
      normalize_bbox (some (a1 :: a2 :: a3 :: a4 :: rest2)) b w h = none) := by
  refine ⟨rfl, ?_, rfl, ?_, ?_, ?_⟩
  · intro hlen
    rcases l with _ | ⟨x1, l⟩
    · rfl
    rcases l with _ | ⟨x2, l⟩
    · rfl
    rcases l with _ | ⟨x3, l⟩
    · rfl
    rcases l with _ | ⟨x4, l⟩
    · rfl
    simp only [List.length_cons] at hlen
    omega
  · intro hlen
    rcases pt with _ | ⟨x1, pt⟩
    · rfl
    rcases pt with _ | ⟨x2, pt⟩
    · rfl
    simp only [List.length_cons] at hlen
    omega
  · intro hnn
    rcases p0 with q0 | _ <;> rcases p1 with q1 | _ <;>
      simp_all [normalize_point, toFloat]
  · intro hnn
    rcases a1 with q1 | _ <;> rcases a2 with q2 | _ <;>
      rcases a3 with q3 | _ <;> rcases a4 with q4 | _ <;>
      simp_all [normalize_bbox, toFloat]

/-- C1 amended witness: concrete malformed inputs hit each documented
default, and a concrete four-component box with a non-numeric entry
raises. -/
theorem normalize_malformed_defaults_witness :
    normalize_bbox none true 10 10 = some [1/4, 1/4, 1/2, 1/2] ∧
    normalize_bbox (some [.num 1]) true 10 10 = some [1/4, 1/4, 1/2, 1/2] ∧
    normalize_point (some [.nonNum, .num 2]) true 10 10 = [1/2, 1/2] ∧
    normalize_bbox (some [.nonNum, .num 0, .num 0, .num 0]) true 10 10
      = none := by
  have H := normalize_malformed_defaults [.num 1] [.nonNum] true 10 10
    .nonNum (.num 2) [] .nonNum (.num 0) (.num 0) (.num 0) []
  exact ⟨H.1, H.2.1 (by norm_num), H.2.2.2.2.1 (Or.inl rfl),
    H.2.2.2.2.2 (Or.inl rfl)⟩

/-- Bridge between the source's Euclidean comparison `√d < t` and the
ℚ-internal squared form used in the embedding. -/
lemma sqrt_lt_iff_sq (d t : ℚ) (hd : 0 ≤ d) :
    Real.sqrt ((d : ℚ) : ℝ) < ((t : ℚ) : ℝ) ↔ (0 ≤ t ∧ d < t ^ 2) := by
  constructor
  · intro hlt
    have ht : (0 : ℝ) < ((t : ℚ) : ℝ) :=
      lt_of_le_of_lt (Real.sqrt_nonneg ((d : ℚ) : ℝ)) hlt
    have ht' : 0 < t := by exact_mod_cast ht
    refine ⟨ht'.le, ?_⟩
    have hx := (Real.sqrt_lt' (by exact_mod_cast ht')).mp hlt
    exact_mod_cast hx
  · rintro ⟨ht, hsq⟩
    rcases eq_or_lt_of_le ht with hzero | ht'
    · exfalso
      have : d < 0 := by
        have : d < (0 : ℚ) ^ 2 := hzero ▸ hsq
        simpa using this
      linarith
    · refine (Real.sqrt_lt' (by exact_mod_cast ht')).mpr ?_
      exact_mod_cast hsq

/-- Bridge for the strict lower comparison `t < √d` (used for the 0.05
emission threshold). -/
lemma lt_sqrt_iff_sq (d t : ℚ) (ht : 0 ≤ t) :
    ((t : ℚ) : ℝ) < Real.sqrt ((d : ℚ) : ℝ) ↔ t ^ 2 < d := by
  rw [Real.lt_sqrt (by exact_mod_cast ht)]
  constructor <;> intro hx <;> exact_mod_cast hx

/-- C2 (code-bug exhibit): a normalized box whose width component is 0
makes the classifier raise a division error — the guard of line 143
tests the constant `0.2 > 0`, which always holds, so `pixelsPerMeter`
is `0.0` and the division of line 144 raises `ZeroDivisionError`;
the claimed fallback divisor `1.0` is never applied. -/
theorem analyzeGaze_zero_facewidth_raises :
    analyzeGaze (1/4) (1/4) 0 (1/2) (1/2) (1/2) 100 100 = none := by
  have h1 : fartherCloser (1/4) (1/4) 0 (1/2) (1/2) (1/2) 100 100
      = some "farther" := by
    norm_num [fartherCloser]
  have h2 : scaleSqMeters (1/4) (1/4) 0 (1/2) (1/2) (1/2) 100 100 = none := by
    norm_num [scaleSqMeters]
  simp only [analyzeGaze, h1, h2]

/-- C4 counterexample: at gx = 0.3333 (which is strictly below 1/3, so
the claim's 1/3 threshold makes the horizontal component "left" and the
combined label "left"), the code yields "center", because its actual
threshold is the literal 0.3333 and the comparison `gx < 0.3333` is
strict. -/
theorem focalPoint_third_threshold_counterexample :
    (3333/10000 : ℚ) < 1/3 ∧ (0 : ℚ) ≤ 3333/10000 ∧ (3333/10000 : ℚ) ≤ 1 ∧
    (1/3 : ℚ) ≤ 1/2 ∧ (1/2 : ℚ) ≤ 2/3 ∧
    focalPoint (3333/10000) (1/2) = "center" ∧
    focalPoint (3333/10000) (1/2) ≠ "left" := by
  have hval : focalPoint (3333/10000) (1/2) = "center" := by
    norm_num [focalPoint]
  refine ⟨by norm_num, by norm_num, by norm_num, by norm_num, by norm_num,
    hval, ?_⟩
  rw [hval]
  simp

/-- C4 amended: inside [0,1]×[0,1] the focal label follows the 3×3 split
with thresholds at exactly the source literals 0.3333 and 0.6667
(horizontal "left" iff gx < 0.3333, "right" iff gx > 0.6667; vertical
"top" iff gy < 0.3333, "bottom" iff gy > 0.6667), combined in
vertical-horizontal word order with both-central giving exactly
"center" — as tabulated by `focalTable`. -/
theorem focalPoint_in_frame_table (gx gy : ℚ)
    (hx0 : 0 ≤ gx) (hx1 : gx ≤ 1) (hy0 : 0 ≤ gy) (hy1 : gy ≤ 1) :
    focalPoint gx gy = focalTable gx gy := by
  have hframe : ¬(gx < 0 ∨ gx > 1 ∨ gy < 0 ∨ gy > 1) := by
    push_neg
    exact ⟨hx0, hx1, hy0, hy1⟩
  simp only [focalPoint, focalTable, if_neg hframe]
  split_ifs <;> first | rfl | simp_all | (exfalso; linarith)

/-- C4 amended witness: the exact center is labelled "center" both by the
code and by the amended table. -/
theorem focalPoint_in_frame_table_witness :
    focalPoint (1/2) (1/2) = focalTable (1/2) (1/2) :=
  focalPoint_in_frame_table (1/2) (1/2) (by norm_num) (by norm_num)
    (by norm_num) (by norm_num)

/-- C5: `target_type` is "out-of-frame target" exactly when the gaze
pixel coordinate falls outside [0, width] × [0, height]; when inside, it
is "Eye-contact" exactly when the Euclidean pixel distance from the gaze
to the face-box center is below 0.3·min(faceW, faceH), and otherwise
"in-frame target"; the two labels "Eye-contact" and "out-of-frame
target" exclude each other. -/
theorem targetType_spec (bx b_y bw bh gx gy width height : ℚ)
    (hbx : 0 ≤ bx ∧ bx ≤ 1) (hb_y : 0 ≤ b_y ∧ b_y ≤ 1)
    (hbw : 0 ≤ bw ∧ bw ≤ 1) (hbh : 0 ≤ bh ∧ bh ≤ 1)
    (hw : 0 < width) (hh : 0 < height) :
    (targetType bx b_y bw bh gx gy width height = "out-of-frame target" ↔
      ¬(0 ≤ gx * width ∧ gx * width ≤ width ∧
        0 ≤ gy * height ∧ gy * height ≤ height)) ∧
    ((0 ≤ gx * width ∧ gx * width ≤ width ∧
        0 ≤ gy * height ∧ gy * height ≤ height) →
      (targetType bx b_y bw bh gx gy width height = "Eye-contact" ↔
        Real.sqrt (((gx * width - (bx * width + bw * width / 2)) ^ 2
            + (gy * height - (b_y * height + bh * height / 2)) ^ 2 : ℚ) : ℝ) <
          (3/10 : ℝ) * min ((bw * width : ℚ) : ℝ) ((bh * height : ℚ) : ℝ)) ∧
      (targetType bx b_y bw bh gx gy width height = "in-frame target" ↔
        ¬(Real.sqrt (((gx * width - (bx * width + bw * width / 2)) ^ 2
            + (gy * height - (b_y * height + bh * height / 2)) ^ 2 : ℚ) : ℝ) <
          (3/10 : ℝ) * min ((bw * width : ℚ) : ℝ) ((bh * height : ℚ) : ℝ)))) ∧
    ¬(targetType bx b_y bw bh gx gy width height = "Eye-contact" ∧
      targetType bx b_y bw bh gx gy width height = "out-of-frame target") := by
  clear hbx hb_y hbw hbh hw hh
  have hd : (0 : ℚ) ≤ (gx * width - (bx * width + bw * width / 2)) ^ 2
      + (gy * height - (b_y * height + bh * height / 2)) ^ 2 := by positivity
  have hcast : ((min (bw * width) (bh * height) * (3/10) : ℚ) : ℝ)
      = (3/10 : ℝ) * min ((bw * width : ℚ) : ℝ) ((bh * height : ℚ) : ℝ) := by
    push_cast
    ring_nf
  have key := sqrt_lt_iff_sq
    ((gx * width - (bx * width + bw * width / 2)) ^ 2
      + (gy * height - (b_y * height + bh * height / 2)) ^ 2)
    (min (bw * width) (bh * height) * (3/10)) hd
  rw [hcast] at key
  simp only [targetType]
  by_cases hframe : gx * width < 0 ∨ gx * width > width ∨
      gy * height < 0 ∨ gy * height > height
  · rw [if_pos hframe]
    refine ⟨iff_of_true rfl ?_, ?_, ?_⟩
    · rintro ⟨c1, c2, c3, c4⟩
      rcases hframe with hth | hth | hth | hth <;> linarith
    · rintro ⟨c1, c2, c3, c4⟩
      exfalso
      rcases hframe with hth | hth | hth | hth <;> linarith
    · rintro ⟨hcontra, _⟩
      simp at hcontra
  · rw [if_neg hframe]
    push_neg at hframe
    obtain ⟨f1, f2, f3, f4⟩ := hframe
    refine ⟨?_, fun _ => ⟨?_, ?_⟩, ?_⟩
    · constructor
      · intro hT
        split_ifs at hT <;> simp at hT
      · intro hfr
        exact absurd ⟨f1, f2, f3, f4⟩ hfr
    · by_cases hP : 0 ≤ min (bw * width) (bh * height) * (3/10) ∧
          (gx * width - (bx * width + bw * width / 2)) ^ 2
            + (gy * height - (b_y * height + bh * height / 2)) ^ 2
            < (min (bw * width) (bh * height) * (3/10)) ^ 2
      · rw [if_pos hP]
        exact iff_of_true rfl (key.mpr hP)
      · rw [if_neg hP]
        exact iff_of_false (by simp) fun hc => hP (key.mp hc)
    · by_cases hP : 0 ≤ min (bw * width) (bh * height) * (3/10) ∧
          (gx * width - (bx * width + bw * width / 2)) ^ 2
            + (gy * height - (b_y * height + bh * height / 2)) ^ 2
            < (min (bw * width) (bh * height) * (3/10)) ^ 2
      · rw [if_pos hP]
        exact iff_of_false (by simp) fun hc => hc (key.mpr hP)
      · rw [if_neg hP]
        exact iff_of_true rfl fun hc => hP (key.mp hc)
    · rintro ⟨h1, h2⟩
      split_ifs at h1 h2 <;> simp_all

/-- C5 witness: the spec's worked scenario — box (0.3, 0.3, 0.2, 0.2),
gaze (0.35, 0.35), width = height = 100 — is inside the frame, its gaze
distance √50 is not below 0.3·min(20, 20) = 6, so the label is
"in-frame target". -/
theorem targetType_spec_witness :
    targetType (3/10) (3/10) (2/10) (2/10) (35/100) (35/100) 100 100
      = "in-frame target" := by
  have H := targetType_spec (3/10) (3/10) (2/10) (2/10) (35/100) (35/100)
    100 100 (by norm_num) (by norm_num) (by norm_num) (by norm_num)
    (by norm_num) (by norm_num)
  have hin : (0 : ℚ) ≤ 35/100 * 100 ∧ (35/100 : ℚ) * 100 ≤ 100 ∧
      (0 : ℚ) ≤ 35/100 * 100 ∧ (35/100 : ℚ) * 100 ≤ 100 := by norm_num
  refine ((H.2.1 hin).2).mpr ?_
  intro hcontra
  have harg : ((35/100 * 100 - (3/10 * 100 + 2/10 * 100 / 2)) ^ 2
      + (35/100 * 100 - (3/10 * 100 + 2/10 * 100 / 2)) ^ 2 : ℚ) = 50 := by
    norm_num
  rw [harg] at hcontra
  have hmin : (3/10 : ℝ) * min ((2/10 * 100 : ℚ) : ℝ) ((2/10 * 100 : ℚ) : ℝ)
      = 6 := by norm_num
  rw [hmin] at hcontra
  have h36 : (6 : ℝ) ≤ Real.sqrt ((50 : ℚ) : ℝ) := by
    rw [show ((50 : ℚ) : ℝ) = 50 by norm_num]
    rw [show (6 : ℝ) = Real.sqrt 36 by
      rw [show (36 : ℝ) = 6 ^ 2 by norm_num]
      exact (Real.sqrt_sq (by norm_num)).symm]
    exact Real.sqrt_le_sqrt (by norm_num)
  linarith

/-- `normalize_point` always returns a two-element list. -/
lemma normalize_point_shape (pt : Option (List PyVal)) (b : Bool) (w h : ℚ) :
    ∃ a c, normalize_point pt b w h = [a, c] := by
  rcases pt with _ | l
  · exact ⟨1/2, 1/2, rfl⟩
  rcases l with _ | ⟨p0, l⟩
  · exact ⟨1/2, 1/2, rfl⟩
  rcases l with _ | ⟨p1, l⟩
  · exact ⟨1/2, 1/2, rfl⟩
  rcases p0 with q0 | _ <;> rcases p1 with q1 | _
  · rcases b with _ | _
    · exact ⟨_, _, rfl⟩
    · exact ⟨q0, q1, rfl⟩
  all_goals exact ⟨1/2, 1/2, rfl⟩

/-- Re-normalizing an already-normalized two-component point with
`is_normalized = true` passes it through unchanged. -/
lemma normalize_point_renorm (a c w h : ℚ) :
    normalize_point (some [PyVal.num a, PyVal.num c]) true w h = [a, c] := rfl

/-- The squared gaze-to-eye distance is nonnegative. -/
lemma pairDistSq_nonneg (a b : List ℚ) : 0 ≤ pairDistSq a b := by
  rcases a with _ | ⟨a0, _ | ⟨a1, ta⟩⟩ <;>
    rcases b with _ | ⟨b0, _ | ⟨b1, tb⟩⟩ <;>
    simp only [pairDistSq] <;> positivity

/-- The squared distance from a point list to itself is 0. -/
lemma pairDistSq_self (a : List ℚ) : pairDistSq a a = 0 := by
  rcases a with _ | ⟨a0, _ | ⟨a1, ta⟩⟩ <;> simp [pairDistSq]

/-- A record built by `make_ann` carries exactly the gaze it was built
for. -/
lemma make_ann_gaze (bboxN g : List ℚ) (w h : ℚ) (r : AnnotationRecord)
    (hmk : make_ann bboxN g w h = some r) : r.gaze = g := by
  rcases bboxN with _ | ⟨b1, _ | ⟨b2, _ | ⟨b3, _ | ⟨b4, _ | ⟨b5, bl⟩⟩⟩⟩⟩ <;>
    rcases g with _ | ⟨g1, _ | ⟨g2, _ | ⟨g3, gl⟩⟩⟩ <;>
    try exact Option.noConfusion hmk
  simp only [make_ann] at hmk
  rcases han : analyzeGaze b1 b2 b3 b4 g1 g2 w h with _ | a <;>
    rw [han] at hmk
  · exact Option.noConfusion hmk
  · simp only [Option.map_some'] at hmk
    obtain rfl := Option.some_inj.mp hmk
    rfl

/-- `emitAll` preserves the number of entries on success. -/
lemma emitAll_length (f : List PyVal → Option AnnotationRecord) :
    ∀ gs out, emitAll f gs = some out → out.length = gs.length := by
  intro gs
  induction gs with
  | nil =>
    intro out hout
    obtain rfl := Option.some_inj.mp hout.symm
    rfl
  | cons g gs ih =>
    intro out hout
    rcases hf : f g with _ | r <;> rw [emitAll, hf] at hout
    · exact Option.noConfusion hout
    rcases hrest : emitAll f gs with _ | rest <;> rw [hrest] at hout
    · exact Option.noConfusion hout
    obtain rfl := Option.some_inj.mp hout.symm
    simp [ih rest hrest]

/-- On success `emitAll` emits, in order, one record per entry, whose
gaze is the normalization of that entry. -/
lemma emitAll_map_gaze (f : List PyVal → Option AnnotationRecord)
    (N : List PyVal → List ℚ)
    (hf : ∀ g r, f g = some r → r.gaze = N g) :
    ∀ gs out, emitAll f gs = some out →
      out.map AnnotationRecord.gaze = gs.map N := by
  intro gs
  induction gs with
  | nil =>
    intro out hout
    obtain rfl := Option.some_inj.mp hout.symm
    rfl
  | cons g gs ih =>
    intro out hout
    rcases hg : f g with _ | r <;> rw [emitAll, hg] at hout
    · exact Option.noConfusion hout
    rcases hrest : emitAll f gs with _ | rest <;> rw [hrest] at hout
    · exact Option.noConfusion hout
    obtain rfl := Option.some_inj.mp hout.symm
    simp [hf g r hg, ih rest hrest]

/-- `assignNumbers` keeps the list length. -/
lemma assignNumbers_length : ∀ (n : ℕ) (l : List AnnotationRecord),
    (assignNumbers n l).length = l.length := by
  intro n l
  induction l generalizing n with
  | nil => rfl
  | cons a l ih => simp [assignNumbers, ih]

/-- `assignNumbers n` stamps the consecutive numbers n, n+1, ... in
order. -/
lemma assignNumbers_map_number : ∀ (n : ℕ) (l : List AnnotationRecord),
    (assignNumbers n l).map AnnotationRecord.gaze_number
      = List.range' n l.length := by
  intro n l
  induction l generalizing n with
  | nil => rfl
  | cons a l ih =>
    simp only [assignNumbers, List.map_cons, List.length_cons,
      List.range'_succ n l.length 1, ih (n + 1)]

/-- `assignNumbers` does not touch the gaze field. -/
lemma assignNumbers_map_gaze : ∀ (n : ℕ) (l : List AnnotationRecord),
    (assignNumbers n l).map AnnotationRecord.gaze
      = l.map AnnotationRecord.gaze := by
  intro n l
  induction l generalizing n with
  | nil => rfl
  | cons a l ih => simp [assignNumbers, ih]

/-- The ℝ-level distance is zero exactly when the ℚ-level squared
distance is. -/
lemma sqrt_eq_zero_iff_q (d : ℚ) (hd : 0 ≤ d) :
    Real.sqrt ((d : ℚ) : ℝ) = 0 ↔ d = 0 := by
  rw [Real.sqrt_eq_zero (by exact_mod_cast hd)]
  constructor <;> intro hx <;> exact_mod_cast hx

/-- Structural inversion of a successful `buildAnnotations` run: the
normalized box, the primary record, the optional eye record guarded by
the squared 0.05 threshold, the explicit-gazes block, and final
numbering. -/
lemma buildAnnotations_shape (item : SourceItem) (w h : ℚ)
    (anns : List AnnotationRecord)
    (hb : buildAnnotations item w h = some anns) :
    ∃ bboxN primary base extra,
      normalize_bbox item.bbox item.is_gf w h = some bboxN ∧
      make_ann bboxN (primaryGaze item w h) w h = some primary ∧
      ((pairDistSq (primaryGaze item w h)
          (normalize_point item.eye item.is_gf w h) > 1/400 ∧
        ∃ e, make_ann bboxN (normalize_point item.eye item.is_gf w h) w h
            = some e ∧ base = [primary, e]) ∨
       (¬(pairDistSq (primaryGaze item w h)
          (normalize_point item.eye item.is_gf w h) > 1/400) ∧
        base = [primary])) ∧
      ((item.gazes = none ∧ extra = []) ∨
       (∃ gs, item.gazes = some gs ∧
        emitAll (fun g =>
          make_ann bboxN (normalize_point (some g) item.is_gf w h) w h) gs
          = some extra)) ∧
      anns = assignNumbers 1 (base ++ extra) := by
  simp only [buildAnnotations] at hb
  rcases hnb : normalize_bbox item.bbox item.is_gf w h with _ | bboxN
  · simp only [hnb] at hb
    exact Option.noConfusion hb
  simp only [hnb] at hb
  rcases hmk : make_ann bboxN (primaryGaze item w h) w h with _ | primary
  · simp only [hmk] at hb
    exact Option.noConfusion hb
  simp only [hmk] at hb
  by_cases hdist : pairDistSq (primaryGaze item w h)
      (normalize_point item.eye item.is_gf w h) > 1/400
  · simp only [if_pos hdist] at hb
    rcases hme : make_ann bboxN
        (normalize_point item.eye item.is_gf w h) w h with _ | e
    · simp only [hme] at hb
      exact Option.noConfusion hb
    simp only [hme] at hb
    rcases hgz : item.gazes with _ | gs
    · simp only [hgz] at hb
      refine ⟨bboxN, primary, [primary, e], [], rfl, hmk,
        Or.inl ⟨hdist, e, hme, rfl⟩, Or.inl ⟨rfl, rfl⟩, ?_⟩
      rw [List.append_nil]
      exact (Option.some_inj.mp hb).symm
    simp only [hgz] at hb
    rcases hem : emitAll (fun g =>
        make_ann bboxN (normalize_point (some g) item.is_gf w h) w h) gs
        with _ | extra
    · simp only [hem] at hb
      exact Option.noConfusion hb
    simp only [hem] at hb
    exact ⟨bboxN, primary, [primary, e], extra, rfl, hmk,
      Or.inl ⟨hdist, e, hme, rfl⟩, Or.inr ⟨gs, rfl, hem⟩,
      (Option.some_inj.mp hb).symm⟩
  · simp only [if_neg hdist] at hb
    rcases hgz : item.gazes with _ | gs
    · simp only [hgz] at hb
      refine ⟨bboxN, primary, [primary], [], rfl, hmk,
        Or.inr ⟨hdist, rfl⟩, Or.inl ⟨rfl, rfl⟩, ?_⟩
      rw [List.append_nil]
      exact (Option.some_inj.mp hb).symm
    simp only [hgz] at hb
    rcases hem : emitAll (fun g =>
        make_ann bboxN (normalize_point (some g) item.is_gf w h) w h) gs
        with _ | extra
    · simp only [hem] at hb
      exact Option.noConfusion hb
    simp only [hem] at hb
    exact ⟨bboxN, primary, [primary], extra, rfl, hmk,
      Or.inr ⟨hdist, rfl⟩, Or.inr ⟨gs, rfl, hem⟩,
      (Option.some_inj.mp hb).symm⟩

/-- C7: on success, the `gaze_number` fields are exactly 1, 2, ..., N in
emission order, and the emitted gazes are, in order: the primary gaze,
then the eye position when the squared-distance threshold fires, then
the explicit gazes in original order. -/
theorem gaze_numbers_contiguous (item : SourceItem) (w h : ℚ)
    (anns : List AnnotationRecord)
    (hb : buildAnnotations item w h = some anns) :
    anns.map AnnotationRecord.gaze_number = List.range' 1 anns.length ∧
    anns.map AnnotationRecord.gaze =
      primaryGaze item w h ::
        ((if pairDistSq (primaryGaze item w h)
              (normalize_point item.eye item.is_gf w h) > 1/400
          then [normalize_point item.eye item.is_gf w h] else []) ++
         (item.gazes.getD []).map
           (fun g => normalize_point (some g) item.is_gf w h)) := by
  obtain ⟨bboxN, primary, base, extra, hnb, hmk, hbase, hextra, heq⟩ :=
    buildAnnotations_shape item w h anns hb
  subst heq
  refine ⟨by rw [assignNumbers_map_number, assignNumbers_length], ?_⟩
  rw [assignNumbers_map_gaze, List.map_append]
  have hpg := make_ann_gaze _ _ _ _ _ hmk
  rcases hbase with ⟨hd, e, hme, rfl⟩ | ⟨hd, rfl⟩
  · have hpe := make_ann_gaze _ _ _ _ _ hme
    rw [if_pos hd]
    rcases hextra with ⟨hnone, rfl⟩ | ⟨gs, hgs, hem⟩
    · simp [hnone, hpg, hpe]
    · have hmap := emitAll_map_gaze _
        (fun g => normalize_point (some g) item.is_gf w h)
        (fun g r hr => make_ann_gaze _ _ _ _ _ hr) gs extra hem
      simp [hgs, hpg, hpe, hmap]
  · rw [if_neg hd]
    rcases hextra with ⟨hnone, rfl⟩ | ⟨gs, hgs, hem⟩
    · simp [hnone, hpg]
    · have hmap := emitAll_map_gaze _
        (fun g => normalize_point (some g) item.is_gf w h)
        (fun g r hr => make_ann_gaze _ _ _ _ _ hr) gs extra hem
      simp [hgs, hpg, hmap]

/-- C6: on success, a secondary eye record is emitted exactly when the
normalized Euclidean gaze-to-eye distance exceeds 0.05; at distance 0
the output is one record plus one per explicit gaze, and above the
threshold there are at least two records, the second carrying the eye
position. -/
theorem eye_record_iff_distance (item : SourceItem) (w h : ℚ)
    (anns : List AnnotationRecord)
    (hb : buildAnnotations item w h = some anns) :
    ((1/20 : ℝ) < Real.sqrt ((pairDistSq (primaryGaze item w h)
        (normalize_point item.eye item.is_gf w h) : ℚ) : ℝ) ↔
      anns.length = 2 + (item.gazes.getD []).length) ∧
    ((1/20 : ℝ) < Real.sqrt ((pairDistSq (primaryGaze item w h)
        (normalize_point item.eye item.is_gf w h) : ℚ) : ℝ) →
      2 ≤ anns.length ∧
      (anns.get? 1).map AnnotationRecord.gaze
        = some (normalize_point item.eye item.is_gf w h)) ∧
    (Real.sqrt ((pairDistSq (primaryGaze item w h)
        (normalize_point item.eye item.is_gf w h) : ℚ) : ℝ) = 0 →
      anns.length = 1 + (item.gazes.getD []).length) := by
  obtain ⟨bboxN, primary, base, extra, hnb, hmk, hbase, hextra, heq⟩ :=
    buildAnnotations_shape item w h anns hb
  subst heq
  have hq := lt_sqrt_iff_sq (pairDistSq (primaryGaze item w h)
      (normalize_point item.eye item.is_gf w h)) (1/20) (by norm_num)
  have h400 : ((1/20 : ℚ)) ^ 2 = 1/400 := by norm_num
  rw [h400, show ((1/20 : ℚ) : ℝ) = (1/20 : ℝ) by norm_num] at hq
  have hz := sqrt_eq_zero_iff_q (pairDistSq (primaryGaze item w h)
      (normalize_point item.eye item.is_gf w h))
    (pairDistSq_nonneg _ _)
  have hextraLen : extra.length = (item.gazes.getD []).length := by
    rcases hextra with ⟨hnone, rfl⟩ | ⟨gs, hgs, hem⟩
    · simp [hnone]
    · simp [hgs, emitAll_length _ gs extra hem]
  rcases hbase with ⟨hd, e, hme, rfl⟩ | ⟨hd, rfl⟩
  · have hlen : (assignNumbers 1 ([primary, e] ++ extra)).length
        = 2 + (item.gazes.getD []).length := by
      rw [assignNumbers_length]
      simp only [List.length_append, List.length_cons, List.length_nil,
        hextraLen]
    refine ⟨iff_of_true (hq.mpr hd) hlen, fun _ => ⟨?_, ?_⟩, fun hsz => ?_⟩
    · rw [hlen]; omega
    · have hpe := make_ann_gaze _ _ _ _ _ hme
      simp [assignNumbers, hpe]
    · exfalso
      have h0 := hz.mp hsz
      rw [h0] at hd
      norm_num at hd
  · have hlen : (assignNumbers 1 ([primary] ++ extra)).length
        = 1 + (item.gazes.getD []).length := by
      rw [assignNumbers_length]
      simp only [List.length_append, List.length_cons, List.length_nil,
        hextraLen]
    refine ⟨?_, fun hgt => absurd (hq.mp hgt) hd, fun _ => hlen⟩
    constructor
    · intro hgt
      exact absurd (hq.mp hgt) hd
    · intro hlen2
      exfalso
      rw [hlen] at hlen2
      omega

/-- C3 amended: when the item provides no gaze field AND its coordinates
are pre-normalized (GazeFollow namespace, `is_gf = true`), the primary
record's gaze equals the normalized eye position and no secondary eye
record is emitted (the output is one record plus one per explicit gaze).
For non-pre-normalized items the fallback eye point is normalized a
second time (divided again by the image dimensions), so the primary gaze
generally differs from the eye and a secondary record can appear. -/
theorem missing_gaze_primary_is_eye (item : SourceItem) (w h : ℚ)
    (anns : List AnnotationRecord)
    (hgf : item.is_gf = true) (hgz : item.gaze = none)
    (hb : buildAnnotations item w h = some anns) :
    anns.head?.map AnnotationRecord.gaze
      = some (normalize_point item.eye item.is_gf w h) ∧
    anns.length = 1 + (item.gazes.getD []).length := by
  have hpg : primaryGaze item w h
      = normalize_point item.eye item.is_gf w h := by
    obtain ⟨a, c, hac⟩ := normalize_point_shape item.eye item.is_gf w h
    simp only [primaryGaze, hgz]
    rw [hac, hgf]
    exact (normalize_point_renorm a c w h).trans rfl
  have hdist0 : pairDistSq (primaryGaze item w h)
      (normalize_point item.eye item.is_gf w h) = 0 := by
    rw [hpg, pairDistSq_self]
  obtain ⟨bboxN, primary, base, extra, hnb, hmk, hbase, hextra, heq⟩ :=
    buildAnnotations_shape item w h anns hb
  subst heq
  have hextraLen : extra.length = (item.gazes.getD []).length := by
    rcases hextra with ⟨hnone, rfl⟩ | ⟨gs, hgs, hem⟩
    · simp [hnone]
    · simp [hgs, emitAll_length _ gs extra hem]
  rcases hbase with ⟨hd, e, hme, rfl⟩ | ⟨hd, rfl⟩
  · exfalso
    rw [hdist0] at hd
    norm_num at hd
  · have hpgz := make_ann_gaze _ _ _ _ _ hmk
    constructor
    · simp [assignNumbers, hpgz, hpg]
    · rw [assignNumbers_length]
      simp only [List.length_append, List.length_cons, List.length_nil,
        hextraLen]

/-- C3 counterexample: a pixel-space item with no gaze field.  The
already-normalized eye (0.5, 0.5) is normalized a second time (divided
again by the 100-pixel dimensions), so the primary record carries
(0.005, 0.005) — not the normalized eye position — the gaze-to-eye
distance is about 0.7 > 0.05, and a secondary eye record IS emitted:
two records, not one. -/
theorem buildAnnotations_missing_gaze_counterexample :
    normalize_point (some [.num 50, .num 50]) false 100 100 = [1/2, 1/2] ∧
    (buildAnnotations itemVatNoGaze 100 100).map
        (List.map AnnotationRecord.gaze)
      = some [[1/200, 1/200], [1/2, 1/2]] ∧
    ¬([1/200, 1/200] : List ℚ) = [1/2, 1/2] ∧
    (buildAnnotations itemVatNoGaze 100 100).map List.length = some 2 := by
  have hbb : normalize_bbox (some [.num 25, .num 25, .num 50, .num 50])
      false 100 100 = some [1/4, 1/4, 1/2, 1/2] := by
    norm_num [normalize_bbox, toFloat, rectify_bbox, clamp01,
      min_def, max_def]
  have heye : normalize_point (some [.num 50, .num 50]) false 100 100
      = [1/2, 1/2] := by
    norm_num [normalize_point, toFloat]
  have hpg : primaryGaze itemVatNoGaze 100 100 = [1/200, 1/200] := by
    norm_num [primaryGaze, itemVatNoGaze, normalize_point, toFloat]
  have han1 : analyzeGaze (1/4) (1/4) (1/2) (1/2) (1/200) (1/200) 100 100
      = some ⟨"in-frame target", "equal", 9801/125000,
          "Object above (ceiling, sky, etc.)", "top-left"⟩ := by
    have htt : targetType (1/4) (1/4) (1/2) (1/2) (1/200) (1/200) 100 100
        = "in-frame target" := by
      norm_num [targetType, min_def]
    have hfc : fartherCloser (1/4) (1/4) (1/2) (1/2) (1/200) (1/200) 100 100
        = some "equal" := by
      norm_num [fartherCloser]
    have hsc : scaleSqMeters (1/4) (1/4) (1/2) (1/2) (1/200) (1/200) 100 100
        = some (9801/125000) := by
      norm_num [scaleSqMeters]
    simp only [analyzeGaze, htt, hfc, hsc]
    norm_num [objectDetection, focalPoint]
    all_goals simp
  have han2 : analyzeGaze (1/4) (1/4) (1/2) (1/2) (1/2) (1/2) 100 100
      = some ⟨"Eye-contact", "closer", 0, "Camera/Viewer", "center"⟩ := by
    have htt : targetType (1/4) (1/4) (1/2) (1/2) (1/2) (1/2) 100 100
        = "Eye-contact" := by
      norm_num [targetType, min_def]
    have hfc : fartherCloser (1/4) (1/4) (1/2) (1/2) (1/2) (1/2) 100 100
        = some "closer" := by
      norm_num [fartherCloser]
    have hsc : scaleSqMeters (1/4) (1/4) (1/2) (1/2) (1/2) (1/2) 100 100
        = some 0 := by
      norm_num [scaleSqMeters]
    simp only [analyzeGaze, htt, hfc, hsc]
    norm_num [objectDetection, focalPoint]
    all_goals simp
  have hmk1 : make_ann [1/4, 1/4, 1/2, 1/2] [1/200, 1/200] 100 100
      = some ⟨[1/4, 1/4, 1/2, 1/2], [1/200, 1/200], "in-frame target",
          "equal", 9801/125000, "Object above (ceiling, sky, etc.)",
          "top-left", 0⟩ := by
    simp only [make_ann, han1, Option.map_some']
  have hmk2 : make_ann [1/4, 1/4, 1/2, 1/2] [1/2, 1/2] 100 100
      = some ⟨[1/4, 1/4, 1/2, 1/2], [1/2, 1/2], "Eye-contact", "closer",
          0, "Camera/Viewer", "center", 0⟩ := by
    simp only [make_ann, han2, Option.map_some']
  have hb : buildAnnotations itemVatNoGaze 100 100
      = some [⟨[1/4, 1/4, 1/2, 1/2], [1/200, 1/200], "in-frame target",
          "equal", 9801/125000, "Object above (ceiling, sky, etc.)",
          "top-left", 1⟩,
        ⟨[1/4, 1/4, 1/2, 1/2], [1/2, 1/2], "Eye-contact", "closer",
          0, "Camera/Viewer", "center", 2⟩] := by
    have hp1 : itemVatNoGaze.bbox
        = some [.num 25, .num 25, .num 50, .num 50] := rfl
    have hp2 : itemVatNoGaze.is_gf = false := rfl
    have hp3 : itemVatNoGaze.eye = some [.num 50, .num 50] := rfl
    have hp4 : itemVatNoGaze.gazes = none := rfl
    have hdgt : pairDistSq [1/200, 1/200] [(1/2 : ℚ), 1/2] > 1/400 := by
      norm_num [pairDistSq]
    simp only [buildAnnotations, hp1, hp2, hp3, hp4, hbb, heye, hpg,
      if_pos hdgt, hmk1, hmk2, assignNumbers]
  refine ⟨heye, ?_, by norm_num, ?_⟩ <;> rw [hb] <;> rfl

/-- C3 amended witness: a concrete pre-normalized item with no gaze field
emits exactly one record whose gaze is the normalized eye position. -/
theorem missing_gaze_primary_is_eye_witness :
    buildAnnotations itemGfNoGaze 100 100
      = some [⟨[1/4, 1/4, 1/2, 1/2], [3/5, 3/5], "Eye-contact", "closer",
          2/625, "Camera/Viewer", "center", 1⟩] ∧
    (some [(⟨[1/4, 1/4, 1/2, 1/2], [3/5, 3/5], "Eye-contact", "closer",
          2/625, "Camera/Viewer", "center", 1⟩ : AnnotationRecord)]).map
        List.length = some 1 ∧
    ([(⟨[1/4, 1/4, 1/2, 1/2], [3/5, 3/5], "Eye-contact", "closer",
          2/625, "Camera/Viewer", "center", 1⟩ : AnnotationRecord)]).head?.map
        AnnotationRecord.gaze
      = some (normalize_point itemGfNoGaze.eye itemGfNoGaze.is_gf 100 100) := by
  have hbb : normalize_bbox (some [.num (1/4), .num (1/4), .num (1/2),
      .num (1/2)]) true 100 100 = some [1/4, 1/4, 1/2, 1/2] := by
    norm_num [normalize_bbox, toFloat, rectify_bbox, clamp01,
      min_def, max_def]
  have hpg : primaryGaze itemGfNoGaze 100 100 = [3/5, 3/5] := rfl
  have han : analyzeGaze (1/4) (1/4) (1/2) (1/2) (3/5) (3/5) 100 100
      = some ⟨"Eye-contact", "closer", 2/625, "Camera/Viewer",
          "center"⟩ := by
    have htt : targetType (1/4) (1/4) (1/2) (1/2) (3/5) (3/5) 100 100
        = "Eye-contact" := by
      norm_num [targetType, min_def]
    have hfc : fartherCloser (1/4) (1/4) (1/2) (1/2) (3/5) (3/5) 100 100
        = some "closer" := by
      norm_num [fartherCloser]
    have hsc : scaleSqMeters (1/4) (1/4) (1/2) (1/2) (3/5) (3/5) 100 100
        = some (2/625) := by
      norm_num [scaleSqMeters]
    simp only [analyzeGaze, htt, hfc, hsc]
    norm_num [objectDetection, focalPoint]
    all_goals simp
  have hmk : make_ann [1/4, 1/4, 1/2, 1/2] [3/5, 3/5] 100 100
      = some ⟨[1/4, 1/4, 1/2, 1/2], [3/5, 3/5], "Eye-contact", "closer",
          2/625, "Camera/Viewer", "center", 0⟩ := by
    simp only [make_ann, han, Option.map_some']
  have hb : buildAnnotations itemGfNoGaze 100 100
      = some [⟨[1/4, 1/4, 1/2, 1/2], [3/5, 3/5], "Eye-contact", "closer",
          2/625, "Camera/Viewer", "center", 1⟩] := by
    have hp1 : itemGfNoGaze.bbox
        = some [.num (1/4), .num (1/4), .num (1/2), .num (1/2)] := rfl
    have hp2 : itemGfNoGaze.is_gf = true := rfl
    have hp3 : itemGfNoGaze.eye = some [.num (3/5), .num (3/5)] := rfl
    have hp4 : itemGfNoGaze.gazes = none := rfl
    have heye : normalize_point (some [.num (3/5), .num (3/5)]) true 100 100
        = [3/5, 3/5] := rfl
    have hdle : ¬(pairDistSq [(3/5 : ℚ), 3/5] [(3/5 : ℚ), 3/5] > 1/400) := by
      norm_num [pairDistSq]
    simp only [buildAnnotations, hp1, hp2, hp3, hp4, hbb, heye, hpg,
      if_neg hdle, hmk, assignNumbers]
  have H := missing_gaze_primary_is_eye itemGfNoGaze 100 100 _ rfl rfl hb
  exact ⟨hb, rfl, H.1⟩

/-- C6 witness: with eye (0.9, 0.9) and gaze (0.5, 0.5) the normalized
distance exceeds 0.05, so two records are emitted and the second carries
the eye position. -/
theorem eye_record_iff_distance_witness :
    buildAnnotations itemGfFarEye 100 100
      = some [⟨[1/4, 1/4, 1/2, 1/2], [1/2, 1/2], "Eye-contact", "closer",
          0, "Camera/Viewer", "center", 1⟩,
        ⟨[1/4, 1/4, 1/2, 1/2], [9/10, 9/10], "in-frame target", "equal",
          32/625, "Object below (floor, ground, etc.)", "bottom-right",
          2⟩] ∧
    (1/20 : ℝ) < Real.sqrt ((pairDistSq (primaryGaze itemGfFarEye 100 100)
        (normalize_point itemGfFarEye.eye itemGfFarEye.is_gf 100 100)
        : ℚ) : ℝ) ∧
    (([(⟨[1/4, 1/4, 1/2, 1/2], [1/2, 1/2], "Eye-contact", "closer",
          0, "Camera/Viewer", "center", 1⟩ : AnnotationRecord),
        ⟨[1/4, 1/4, 1/2, 1/2], [9/10, 9/10], "in-frame target", "equal",
          32/625, "Object below (floor, ground, etc.)", "bottom-right",
          2⟩]).get? 1).map AnnotationRecord.gaze
      = some (normalize_point itemGfFarEye.eye itemGfFarEye.is_gf
          100 100) := by
  have hbb : normalize_bbox (some [.num (1/4), .num (1/4), .num (1/2),
      .num (1/2)]) true 100 100 = some [1/4, 1/4, 1/2, 1/2] := by
    norm_num [normalize_bbox, toFloat, rectify_bbox, clamp01,
      min_def, max_def]
  have hpg : primaryGaze itemGfFarEye 100 100 = [1/2, 1/2] := rfl
  have heye : normalize_point (some [.num (9/10), .num (9/10)]) true 100 100
      = [9/10, 9/10] := rfl
  have han1 : analyzeGaze (1/4) (1/4) (1/2) (1/2) (1/2) (1/2) 100 100
      = some ⟨"Eye-contact", "closer", 0, "Camera/Viewer", "center"⟩ := by
    have htt : targetType (1/4) (1/4) (1/2) (1/2) (1/2) (1/2) 100 100
        = "Eye-contact" := by
      norm_num [targetType, min_def]
    have hfc : fartherCloser (1/4) (1/4) (1/2) (1/2) (1/2) (1/2) 100 100
        = some "closer" := by
      norm_num [fartherCloser]
    have hsc : scaleSqMeters (1/4) (1/4) (1/2) (1/2) (1/2) (1/2) 100 100
        = some 0 := by
      norm_num [scaleSqMeters]
    simp only [analyzeGaze, htt, hfc, hsc]
    norm_num [objectDetection, focalPoint]
    all_goals simp
  have han2 : analyzeGaze (1/4) (1/4) (1/2) (1/2) (9/10) (9/10) 100 100
      = some ⟨"in-frame target", "equal", 32/625,
          "Object below (floor, ground, etc.)", "bottom-right"⟩ := by
    have htt : targetType (1/4) (1/4) (1/2) (1/2) (9/10) (9/10) 100 100
        = "in-frame target" := by
      norm_num [targetType, min_def]
    have hfc : fartherCloser (1/4) (1/4) (1/2) (1/2) (9/10) (9/10) 100 100
        = some "equal" := by
      norm_num [fartherCloser]
    have hsc : scaleSqMeters (1/4) (1/4) (1/2) (1/2) (9/10) (9/10) 100 100
        = some (32/625) := by
      norm_num [scaleSqMeters]
    simp only [analyzeGaze, htt, hfc, hsc]
    norm_num [objectDetection, focalPoint]
    all_goals simp
  have hmk1 : make_ann [1/4, 1/4, 1/2, 1/2] [1/2, 1/2] 100 100
      = some ⟨[1/4, 1/4, 1/2, 1/2], [1/2, 1/2], "Eye-contact", "closer",
          0, "Camera/Viewer", "center", 0⟩ := by
    simp only [make_ann, han1, Option.map_some']
  have hmk2 : make_ann [1/4, 1/4, 1/2, 1/2] [9/10, 9/10] 100 100
      = some ⟨[1/4, 1/4, 1/2, 1/2], [9/10, 9/10], "in-frame target",
          "equal", 32/625, "Object below (floor, ground, etc.)",
          "bottom-right", 0⟩ := by
    simp only [make_ann, han2, Option.map_some']
  have hb : buildAnnotations itemGfFarEye 100 100
      = some [⟨[1/4, 1/4, 1/2, 1/2], [1/2, 1/2], "Eye-contact", "closer",
          0, "Camera/Viewer", "center", 1⟩,
        ⟨[1/4, 1/4, 1/2, 1/2], [9/10, 9/10], "in-frame target", "equal",
          32/625, "Object below (floor, ground, etc.)", "bottom-right",
          2⟩] := by
    have hp1 : itemGfFarEye.bbox
        = some [.num (1/4), .num (1/4), .num (1/2), .num (1/2)] := rfl
    have hp2 : itemGfFarEye.is_gf = true := rfl
    have hp3 : itemGfFarEye.eye = some [.num (9/10), .num (9/10)] := rfl
    have hp4 : itemGfFarEye.gazes = none := rfl
    have hdgt : pairDistSq [1/2, 1/2] [(9/10 : ℚ), 9/10] > 1/400 := by
      norm_num [pairDistSq]
    simp only [buildAnnotations, hp1, hp2, hp3, hp4, hbb, heye, hpg,
      if_pos hdgt, hmk1, hmk2, assignNumbers]
  have H := eye_record_iff_distance itemGfFarEye 100 100 _ hb
  have hlen : (2 : ℕ) = 2 + (itemGfFarEye.gazes.getD []).length := rfl
  have hgt := H.1.mpr hlen
  exact ⟨hb, hgt, (H.2.1 hgt).2⟩

/-- C7 witness: eye (0.5, 0.5), no gaze field (distance 0) and one
explicit extra gaze: two records numbered 1, 2 in emission order. -/
theorem gaze_numbers_contiguous_witness :
    buildAnnotations itemGfExtraGaze 100 100
      = some [⟨[1/4, 1/4, 1/2, 1/2], [1/2, 1/2], "Eye-contact", "closer",
          0, "Camera/Viewer", "center", 1⟩,
        ⟨[1/4, 1/4, 1/2, 1/2], [1/10, 1/10], "in-frame target", "equal",
          32/625, "Object above (ceiling, sky, etc.)", "top-left", 2⟩] ∧
    ([(⟨[1/4, 1/4, 1/2, 1/2], [1/2, 1/2], "Eye-contact", "closer",
          0, "Camera/Viewer", "center", 1⟩ : AnnotationRecord),
        ⟨[1/4, 1/4, 1/2, 1/2], [1/10, 1/10], "in-frame target", "equal",
          32/625, "Object above (ceiling, sky, etc.)", "top-left",
          2⟩]).map AnnotationRecord.gaze_number = [1, 2] := by
  have hbb : normalize_bbox (some [.num (1/4), .num (1/4), .num (1/2),
      .num (1/2)]) true 100 100 = some [1/4, 1/4, 1/2, 1/2] := by
    norm_num [normalize_bbox, toFloat, rectify_bbox, clamp01,
      min_def, max_def]
  have hpg : primaryGaze itemGfExtraGaze 100 100 = [1/2, 1/2] := rfl
  have heye : normalize_point (some [.num (1/2), .num (1/2)]) true 100 100
      = [1/2, 1/2] := rfl
  have hpt : normalize_point (some [.num (1/10), .num (1/10)]) true 100 100
      = [1/10, 1/10] := rfl
  have han1 : analyzeGaze (1/4) (1/4) (1/2) (1/2) (1/2) (1/2) 100 100
      = some ⟨"Eye-contact", "closer", 0, "Camera/Viewer", "center"⟩ := by
    have htt : targetType (1/4) (1/4) (1/2) (1/2) (1/2) (1/2) 100 100
        = "Eye-contact" := by
      norm_num [targetType, min_def]
    have hfc : fartherCloser (1/4) (1/4) (1/2) (1/2) (1/2) (1/2) 100 100
        = some "closer" := by
      norm_num [fartherCloser]
    have hsc : scaleSqMeters (1/4) (1/4) (1/2) (1/2) (1/2) (1/2) 100 100
        = some 0 := by
      norm_num [scaleSqMeters]
    simp only [analyzeGaze, htt, hfc, hsc]
    norm_num [objectDetection, focalPoint]
    all_goals simp
  have han2 : analyzeGaze (1/4) (1/4) (1/2) (1/2) (1/10) (1/10) 100 100
      = some ⟨"in-frame target", "equal", 32/625,
          "Object above (ceiling, sky, etc.)", "top-left"⟩ := by
    have htt : targetType (1/4) (1/4) (1/2) (1/2) (1/10) (1/10) 100 100
        = "in-frame target" := by
      norm_num [targetType, min_def]
    have hfc : fartherCloser (1/4) (1/4) (1/2) (1/2) (1/10) (1/10) 100 100
        = some "equal" := by
      norm_num [fartherCloser]
    have hsc : scaleSqMeters (1/4) (1/4) (1/2) (1/2) (1/10) (1/10) 100 100
        = some (32/625) := by
      norm_num [scaleSqMeters]
    simp only [analyzeGaze, htt, hfc, hsc]
    norm_num [objectDetection, focalPoint]
    all_goals simp
  have hmk1 : make_ann [1/4, 1/4, 1/2, 1/2] [1/2, 1/2] 100 100
      = some ⟨[1/4, 1/4, 1/2, 1/2], [1/2, 1/2], "Eye-contact", "closer",
          0, "Camera/Viewer", "center", 0⟩ := by
    simp only [make_ann, han1, Option.map_some']
  have hmk2 : make_ann [1/4, 1/4, 1/2, 1/2] [1/10, 1/10] 100 100
      = some ⟨[1/4, 1/4, 1/2, 1/2], [1/10, 1/10], "in-frame target",
          "equal", 32/625, "Object above (ceiling, sky, etc.)",
          "top-left", 0⟩ := by
    simp only [make_ann, han2, Option.map_some']
  have hb : buildAnnotations itemGfExtraGaze 100 100
      = some [⟨[1/4, 1/4, 1/2, 1/2], [1/2, 1/2], "Eye-contact", "closer",
          0, "Camera/Viewer", "center", 1⟩,
        ⟨[1/4, 1/4, 1/2, 1/2], [1/10, 1/10], "in-frame target", "equal",
          32/625, "Object above (ceiling, sky, etc.)", "top-left",
          2⟩] := by
    have hp1 : itemGfExtraGaze.bbox
        = some [.num (1/4), .num (1/4), .num (1/2), .num (1/2)] := rfl
    have hp2 : itemGfExtraGaze.is_gf = true := rfl
    have hp3 : itemGfExtraGaze.eye = some [.num (1/2), .num (1/2)] := rfl
    have hp4 : itemGfExtraGaze.gazes
        = some [[.num (1/10), .num (1/10)]] := rfl
    have hdle : ¬(pairDistSq [(1/2 : ℚ), 1/2] [(1/2 : ℚ), 1/2]
        > 1/400) := by
      norm_num [pairDistSq]
    simp only [buildAnnotations, hp1, hp2, hp3, hp4, hbb, heye, hpg, hpt,
      if_neg hdle, hmk1, hmk2, emitAll, assignNumbers, Option.map_some']
  have H := gaze_numbers_contiguous itemGfExtraGaze 100 100 _ hb
  refine ⟨hb, ?_⟩
  rw [H.1]
  rfl

end GazeTool
